import Mathlib

/-!
# Verification of the Selective-Repeat ARQ implementation in `sr.c`

A shallow embedding of the protocol code in `sr.c` (sender entity A,
receiver entity B), together with proofs and refutations of the
specification's claims about it.

Modelling conventions:
* C `int` values are modelled as unbounded `Int`; all arithmetic performed
  by the protocol on sequence numbers, window counters and checksums of
  well-formed packets stays far inside the `int32` range, so wrap-around
  is never exercised and is not modelled.
* C's `%` operator truncates toward zero, so it is modelled by `Int.tmod`
  (e.g. `(-1) % 7 = -1` in C and `Int.tmod (-1) 7 = -1`).
* The C arrays `buffer[WINDOWSIZE]`, `acked[WINDOWSIZE]`,
  `in_window[SEQSPACE]`, `received[WINDOWSIZE]`, `recv_buffer[WINDOWSIZE]`,
  `already_received[SEQSPACE]` are modelled as total functions `Int → _`
  updated pointwise; all indices produced by the code on the inputs we
  consider are in range, so the extra points are never exercised.
* Side effects (`tolayer3`, `tolayer5`, `starttimer`, `stoptimer`, the
  `window_full` counter bump) are collected in an explicit action list,
  and the single-shot timer's running/stopped status is additionally
  tracked as a boolean field updated exactly at the call sites of
  `starttimer`/`stoptimer` (and cleared on expiry when the interrupt
  handler runs).
* The emulator's global trace level `TRACE` is passed as a parameter to
  `B_input` because two of its branches (the corrupted-packet branch and
  the out-of-window branch) contain statements that, after the original
  `printf` calls were commented out, became the sole body of
  `if (TRACE > 0)` and therefore execute only when `TRACE > 0`.  The
  value read from the uninitialized `sendpkt.acknum` field on the
  fall-through paths is indeterminate in C and is modelled by an
  explicit `junk` parameter.
-/

/-- `#define WINDOWSIZE 6` -/
def WINDOWSIZE : Int := 6

/-- `#define SEQSPACE 7` -/
def SEQSPACE : Int := 7

/-- `#define NOTINUSE (-1)` -/
def NOTINUSE : Int := -1

/-- `struct pkt`: seqnum, acknum, checksum are C `int`s; the 20-byte
payload is modelled as a list of byte values. -/
structure Pkt where
  seqnum : Int
  acknum : Int
  checksum : Int
  payload : List Int
  deriving DecidableEq, Repr

/-- `struct msg`: a 20-byte application message. -/
structure Msg where
  data : List Int
  deriving DecidableEq, Repr

/-- `ComputeChecksum`: seqnum + acknum + sum of the payload bytes.
(The checksum field itself is not part of the sum.) -/
def ComputeChecksum (packet : Pkt) : Int :=
  packet.seqnum + packet.acknum + packet.payload.sum

/-- `IsCorrupted`: true iff the stored checksum disagrees with the
recomputed one. -/
def IsCorrupted (packet : Pkt) : Bool :=
  decide (packet.checksum ≠ ComputeChecksum packet)

/-- Observable side effects emitted by the handlers. -/
inductive Evt where
  | tolayer3 (p : Pkt)
  | tolayer5 (payload : List Int)
  | startTimer
  | stopTimer
  | windowFull
  deriving DecidableEq, Repr

/-! ## Sender (entity A) -/

/-- The sender's mutable state: the file-scope variables of the A side of
`sr.c`, plus the emulator counters the A handlers increment, plus the
tracked running/stopped status of A's single-shot timer. -/
structure SenderState where
  buffer : Int → Pkt
  acked : Int → Bool
  windowbase : Int
  A_nextseqnum : Int
  windowcount : Int
  oldest_unacked : Int
  in_window : Int → Bool
  timerOn : Bool
  window_full : Int
  total_ACKs_received : Int
  new_ACKs : Int
  packets_resent : Int

/-- The all-zero packet, standing for the indeterminate contents of a
never-written `buffer` slot. -/
def zeroPkt : Pkt := { seqnum := 0, acknum := 0, checksum := 0, payload := [] }

/-- `A_init`: nextseqnum 0, empty window, no timed packet, all flags
cleared. -/
def A_initState : SenderState where
  buffer := fun _ => zeroPkt
  acked := fun _ => false
  windowbase := 0
  A_nextseqnum := 0
  windowcount := 0
  oldest_unacked := -1
  in_window := fun _ => false
  timerOn := false
  window_full := 0
  total_ACKs_received := 0
  new_ACKs := 0
  packets_resent := 0

/-- The scan loop of `find_oldest_unacked`: starting at offset `i` from
`windowbase`, with `cnt` offsets left to inspect, return the first
sequence number `(windowbase + i) % SEQSPACE` whose slot is unacked and
in-window, else `-1`. -/
def findOldestAux (ackedF inwF : Int → Bool) (base : Int) : Nat → Nat → Int
  | _, 0 => -1
  | i, cnt + 1 =>
    let seq := Int.tmod (base + Int.ofNat i) SEQSPACE
    if ackedF (Int.tmod seq WINDOWSIZE) = false ∧ inwF seq = true then seq
    else findOldestAux ackedF inwF base (i + 1) cnt

/-- `find_oldest_unacked` (as a pure function returning the value the C
procedure stores into `oldest_unacked`): scan `windowcount` offsets
forward from `windowbase`. -/
def find_oldest_unacked (s : SenderState) : Int :=
  findOldestAux s.acked s.in_window s.windowbase 0 s.windowcount.toNat

/-- `A_output`: if the window is not full, build the packet for
`A_nextseqnum`, store it in slot `A_nextseqnum % WINDOWSIZE`, mark it
unacked and in-window, transmit it, start the timer if no packet is
currently timed, and advance `A_nextseqnum`; otherwise count a
window-full event and drop the message. -/
def A_output (s : SenderState) (message : Msg) : SenderState × List Evt :=
  if s.windowcount < WINDOWSIZE then
    let sendpkt0 : Pkt :=
      { seqnum := s.A_nextseqnum, acknum := NOTINUSE, checksum := 0,
        payload := message.data }
    let sendpkt : Pkt := { sendpkt0 with checksum := ComputeChecksum sendpkt0 }
    let index := Int.tmod s.A_nextseqnum WINDOWSIZE
    let s1 : SenderState :=
      { s with
        buffer := fun j => if j = index then sendpkt else s.buffer j
        acked := fun j => if j = index then false else s.acked j
        in_window := fun t => if t = s.A_nextseqnum then true else s.in_window t
        windowcount := s.windowcount + 1 }
    if s1.oldest_unacked = -1 then
      ({ s1 with
          oldest_unacked := s.A_nextseqnum
          timerOn := true
          A_nextseqnum := Int.tmod (s.A_nextseqnum + 1) SEQSPACE },
       [Evt.tolayer3 sendpkt, Evt.startTimer])
    else
      ({ s1 with A_nextseqnum := Int.tmod (s.A_nextseqnum + 1) SEQSPACE },
       [Evt.tolayer3 sendpkt])
  else
    ({ s with window_full := s.window_full + 1 }, [Evt.windowFull])

/-- The window-slide loop at the end of `A_input`:
`while (windowcount > 0 && acked[windowbase % WINDOWSIZE] && in_window[windowbase])`
clear the base's in-window flag, advance the base, decrement the count.
Each iteration requires `windowcount > 0` and decrements it, so
`windowcount.toNat` steps of fuel always suffice. -/
def slideWindow (s : SenderState) : Nat → SenderState
  | 0 => s
  | n + 1 =>
    if 0 < s.windowcount ∧ s.acked (Int.tmod s.windowbase WINDOWSIZE) = true ∧
        s.in_window s.windowbase = true then
      slideWindow
        { s with
          in_window := fun t => if t = s.windowbase then false else s.in_window t
          windowbase := Int.tmod (s.windowbase + 1) SEQSPACE
          windowcount := s.windowcount - 1 } n
    else s

/-- `A_input`: drop corrupted ACKs; for an uncorrupted ACK inside the
current window range that is not yet acked, mark it acked, retime the
oldest unacked packet if the ACK was for it, and slide the window;
duplicate or out-of-window ACKs only bump the received counter. -/
def A_input (s : SenderState) (packet : Pkt) : SenderState × List Evt :=
  if IsCorrupted packet = true then (s, [])
  else
    let s0 := { s with total_ACKs_received := s.total_ACKs_received + 1 }
    let hi := Int.tmod (s.windowbase + s.windowcount - 1) SEQSPACE
    if (s.windowbase ≤ hi ∧ s.windowbase ≤ packet.acknum ∧ packet.acknum ≤ hi) ∨
        (hi < s.windowbase ∧ (s.windowbase ≤ packet.acknum ∨ packet.acknum ≤ hi)) then
      let index := Int.tmod packet.acknum WINDOWSIZE
      if s0.acked index = false ∧ s0.in_window packet.acknum = true then
        let s1 : SenderState :=
          { s0 with
            new_ACKs := s0.new_ACKs + 1
            acked := fun j => if j = index then true else s0.acked j }
        let timed :=
          if packet.acknum = s1.oldest_unacked then
            let no := find_oldest_unacked s1
            if no ≠ -1 then
              ({ s1 with oldest_unacked := no, timerOn := true },
               [Evt.stopTimer, Evt.startTimer])
            else
              ({ s1 with oldest_unacked := no, timerOn := false },
               [Evt.stopTimer])
          else (s1, ([] : List Evt))
        (slideWindow timed.1 timed.1.windowcount.toNat, timed.2)
      else (s0, [])
    else (s0, [])

/-- `A_timerinterrupt`: if a packet is being timed and its slot is still
unacked and in-window, retransmit exactly that buffered packet and
restart the timer; if it is already acked (or no longer in-window),
recompute the oldest unacked and restart the timer only if one exists. -/
def A_timerinterrupt (s : SenderState) : SenderState × List Evt :=
  if s.oldest_unacked ≠ -1 then
    let index := Int.tmod s.oldest_unacked WINDOWSIZE
    if s.acked index = false ∧ s.in_window s.oldest_unacked = true then
      ({ s with timerOn := true, packets_resent := s.packets_resent + 1 },
       [Evt.tolayer3 (s.buffer index), Evt.startTimer])
    else
      let no := find_oldest_unacked s
      if no ≠ -1 then
        ({ s with oldest_unacked := no, timerOn := true }, [Evt.startTimer])
      else
        ({ s with oldest_unacked := no, timerOn := false }, [])
  else (s, [])

/-- Sender states reachable from `A_init` by any sequence of handler
invocations. -/
inductive ReachableA : SenderState → Prop where
  | init : ReachableA A_initState
  | output {s : SenderState} (m : Msg) : ReachableA s → ReachableA (A_output s m).1
  | input {s : SenderState} (p : Pkt) : ReachableA s → ReachableA (A_input s p).1
  | timer {s : SenderState} : ReachableA s → ReachableA (A_timerinterrupt s).1

/-! ## Receiver (entity B) -/

/-- The receiver's mutable state: the file-scope variables of the B side
of `sr.c`, plus the `packets_received` counter `B_input` increments. -/
structure RecvState where
  expectedseqnum : Int
  B_nextseqnum : Int
  recv_buffer : Int → Pkt
  received : Int → Bool
  B_windowbase : Int
  already_received : Int → Bool
  packets_received : Int

/-- `B_init`: window base 0, ack alternating bit starts at 1, all
`received` and `already_received` flags cleared. -/
def B_initState : RecvState where
  expectedseqnum := 0
  B_nextseqnum := 1
  recv_buffer := fun _ => zeroPkt
  received := fun _ => false
  B_windowbase := 0
  already_received := fun _ => false
  packets_received := 0

/-- The delivery `do { ... } while (received[B_windowbase % WINDOWSIZE])`
loop of `B_input`: deliver the buffered packet at the window base, clear
its `received` flag, advance the base, and continue while the next slot
is occupied.  Every iteration clears the slot it delivers and the loop
stops at a cleared slot, so at most `WINDOWSIZE` iterations run and
fuel `7` always suffices. -/
def deliverLoop (s : RecvState) (acts : List Evt) : Nat → RecvState × List Evt
  | 0 => (s, acts)
  | n + 1 =>
    let idx := Int.tmod s.B_windowbase WINDOWSIZE
    let acts1 := acts ++ [Evt.tolayer5 ((s.recv_buffer idx).payload)]
    let s1 : RecvState :=
      { s with
        received := fun j => if j = idx then false else s.received j
        B_windowbase := Int.tmod (s.B_windowbase + 1) SEQSPACE }
    if s1.received (Int.tmod s1.B_windowbase WINDOWSIZE) = true then
      deliverLoop s1 acts1 n
    else (s1, acts1)

/-- The ACK-construction tail of `B_input` (lines 348-358 of `sr.c`):
seqnum is the alternating bit `B_nextseqnum` (which then flips), payload
is twenty `'0'` characters (byte value 48), checksum computed last, and
the packet is handed to `tolayer3`. -/
def emitAck (s : RecvState) (acts : List Evt) (ack : Int) : RecvState × List Evt :=
  let sendpkt0 : Pkt :=
    { seqnum := s.B_nextseqnum, acknum := ack, checksum := 0,
      payload := List.replicate 20 48 }
  let sendpkt : Pkt := { sendpkt0 with checksum := ComputeChecksum sendpkt0 }
  ({ s with B_nextseqnum := Int.tmod (s.B_nextseqnum + 1) 2 },
   acts ++ [Evt.tolayer3 sendpkt])

/-- `B_input`, faithful to the control flow of `sr.c` lines 277-359,
including the two branches whose intended statements ended up guarded by
`if (TRACE > 0)` after their `printf`s were commented out:
* corrupted packet: `return` (drop silently) only when `trace > 0`;
  when `trace ≤ 0` control falls through to the ACK tail with
  `sendpkt.acknum` never assigned (modelled by `junk`);
* uncorrupted out-of-window packet: `sendpkt.acknum = packet.seqnum`
  executes only when `trace > 0`; when `trace ≤ 0` the ACK tail runs
  with `sendpkt.acknum` never assigned (modelled by `junk`). -/
def B_input (trace junk : Int) (s : RecvState) (packet : Pkt) : RecvState × List Evt :=
  if IsCorrupted packet = true then
    if 0 < trace then (s, []) else emitAck s [] junk
  else
    let s0 := { s with packets_received := s.packets_received + 1 }
    let hi := Int.tmod (s.B_windowbase + WINDOWSIZE - 1) SEQSPACE
    if (s.B_windowbase ≤ hi ∧ s.B_windowbase ≤ packet.seqnum ∧ packet.seqnum ≤ hi) ∨
        (hi < s.B_windowbase ∧ (s.B_windowbase ≤ packet.seqnum ∨ packet.seqnum ≤ hi)) then
      let index := Int.tmod packet.seqnum WINDOWSIZE
      if s0.received index = false then
        let s1 : RecvState :=
          { s0 with
            received := fun j => if j = index then true else s0.received j
            recv_buffer := fun j => if j = index then packet else s0.recv_buffer j
            already_received :=
              if s0.already_received packet.seqnum = false then
                fun t => if t = packet.seqnum then true else s0.already_received t
              else s0.already_received }
        if packet.seqnum = s1.B_windowbase then
          let dl := deliverLoop s1 [] 7
          emitAck dl.1 dl.2 packet.seqnum
        else emitAck s1 [] packet.seqnum
      else emitAck s0 [] packet.seqnum
    else
      emitAck s0 [] (if 0 < trace then packet.seqnum else junk)

/-- Feed a list of arriving packets through `B_input`, accumulating the
emitted actions. -/
def runB (trace junk : Int) (s : RecvState) : List Pkt → RecvState × List Evt
  | [] => (s, [])
  | p :: ps =>
    let r1 := B_input trace junk s p
    let r2 := runB trace junk r1.1 ps
    (r2.1, r1.2 ++ r2.2)

/-! ## Observation helpers -/

/-- The payloads handed to the application sink (`tolayer5`) within an
action list, in order. -/
def deliveredPayloads (acts : List Evt) : List (List Int) :=
  acts.filterMap fun a =>
    match a with
    | Evt.tolayer5 pl => some pl
    | _ => none

/-- The sequence numbers of the packets handed to the channel
(`tolayer3`) within an action list, in order. -/
def sentSeqnums (acts : List Evt) : List Int :=
  acts.filterMap fun a =>
    match a with
    | Evt.tolayer3 p => some p.seqnum
    | _ => none

/-- The acknowledgement numbers of the packets handed to the channel
(`tolayer3`) within an action list, in order. -/
def sentAcknums (acts : List Evt) : List Int :=
  acts.filterMap fun a =>
    match a with
    | Evt.tolayer3 p => some p.acknum
    | _ => none

/-- How many timer starts an action list contains. -/
def countStarts (acts : List Evt) : Nat :=
  acts.countP fun a => a = Evt.startTimer

/-- An uncorrupted data packet with sequence number `s` and a payload of
twenty copies of the byte `d`, as the sender would build it. -/
def mkData (s d : Int) : Pkt :=
  let p0 : Pkt :=
    { seqnum := s, acknum := NOTINUSE, checksum := 0,
      payload := List.replicate 20 d }
  { p0 with checksum := ComputeChecksum p0 }

/-- An uncorrupted acknowledgement packet carrying acknowledgement
number `a` (alternating-bit seqnum `b`), as the receiver would build it. -/
def mkAck (b a : Int) : Pkt :=
  let p0 : Pkt :=
    { seqnum := b, acknum := a, checksum := 0,
      payload := List.replicate 20 48 }
  { p0 with checksum := ComputeChecksum p0 }

/-- The sender's window state, as enumerated by the specification's
idempotence property: window buffer, acked flags, in-window flags,
window base, window count, oldest-unacked tracker (counters and the
timer are not part of it). -/
def windowView (s : SenderState) :
    (Int → Pkt) × (Int → Bool) × (Int → Bool) × Int × Int × Int :=
  (s.buffer, s.acked, s.in_window, s.windowbase, s.windowcount, s.oldest_unacked)

/-- The sender-window invariant maintained by every A handler: the base
and count are in range, `A_nextseqnum` is the sequence number one past
the window, and `in_window` marks exactly the `windowcount` consecutive
sequence numbers starting at `windowbase` (modulo `SEQSPACE`). -/
def SenderInv (s : SenderState) : Prop :=
  0 ≤ s.windowbase ∧ s.windowbase < SEQSPACE ∧
  0 ≤ s.windowcount ∧ s.windowcount ≤ WINDOWSIZE ∧
  s.A_nextseqnum = Int.tmod (s.windowbase + s.windowcount) SEQSPACE ∧
  ∀ t : Int, s.in_window t = true ↔
    ∃ i : Int, 0 ≤ i ∧ i < s.windowcount ∧
      t = Int.tmod (s.windowbase + i) SEQSPACE

/-- A packet whose stored checksum (999) disagrees with its recomputed
checksum (-1): a corrupted arrival. -/
def corruptPkt : Pkt :=
  { seqnum := 0, acknum := -1, checksum := 999, payload := List.replicate 20 0 }

/-- A twenty-byte message used to instantiate concrete scenarios. -/
def msgSeven : Msg := { data := List.replicate 20 7 }

/-- Seven in-order data packets `0..6` (which wrap the receiver's window
base back to `0`) followed by a retransmission of the already-delivered
packet `0` with its original payload.  Every packet is uncorrupted, and
the whole sequence is realizable sender traffic: the duplicate of
packet `0` is a timeout retransmission arriving after its lost
acknowledgement. -/
def wrapTrace : List Pkt :=
  [mkData 0 10, mkData 1 11, mkData 2 12, mkData 3 13, mkData 4 14,
   mkData 5 15, mkData 6 16, mkData 0 10]

/-- The data packet `A_output` builds for sequence number `k` and
message `m`: payload copied from the message, acknum unused, checksum
computed last. -/
def dpkt (k : Int) (m : Msg) : Pkt :=
  { seqnum := k, acknum := -1, checksum := k + -1 + m.data.sum, payload := m.data }

/-- Sender state after 1 `A_output` call from `A_init` (Scenario A). -/
def stA1 (m1 : Msg) : SenderState :=
  { A_initState with
      buffer := fun j => if j = 0 then dpkt 0 m1 else A_initState.buffer j
      acked := fun j => if j = 0 then false else A_initState.acked j
      in_window := fun t => if t = 0 then true else A_initState.in_window t
      windowcount := 1
      oldest_unacked := 0
      timerOn := true
      A_nextseqnum := 1 }

/-- Sender state after 2 `A_output` calls from `A_init` (Scenario A). -/
def stA2 (m1 m2 : Msg) : SenderState :=
  { stA1 m1 with
      buffer := fun j => if j = 1 then dpkt 1 m2 else (stA1 m1).buffer j
      acked := fun j => if j = 1 then false else (stA1 m1).acked j
      in_window := fun t => if t = 1 then true else (stA1 m1).in_window t
      windowcount := 2
      A_nextseqnum := 2 }

/-- Sender state after 3 `A_output` calls from `A_init` (Scenario A). -/
def stA3 (m1 m2 m3 : Msg) : SenderState :=
  { stA2 m1 m2 with
      buffer := fun j => if j = 2 then dpkt 2 m3 else (stA2 m1 m2).buffer j
      acked := fun j => if j = 2 then false else (stA2 m1 m2).acked j
      in_window := fun t => if t = 2 then true else (stA2 m1 m2).in_window t
      windowcount := 3
      A_nextseqnum := 3 }

/-- Sender state after 4 `A_output` calls from `A_init` (Scenario A). -/
def stA4 (m1 m2 m3 m4 : Msg) : SenderState :=
  { stA3 m1 m2 m3 with
      buffer := fun j => if j = 3 then dpkt 3 m4 else (stA3 m1 m2 m3).buffer j
      acked := fun j => if j = 3 then false else (stA3 m1 m2 m3).acked j
      in_window := fun t => if t = 3 then true else (stA3 m1 m2 m3).in_window t
      windowcount := 4
      A_nextseqnum := 4 }

/-- Sender state after 5 `A_output` calls from `A_init` (Scenario A). -/
def stA5 (m1 m2 m3 m4 m5 : Msg) : SenderState :=
  { stA4 m1 m2 m3 m4 with
      buffer := fun j => if j = 4 then dpkt 4 m5 else (stA4 m1 m2 m3 m4).buffer j
      acked := fun j => if j = 4 then false else (stA4 m1 m2 m3 m4).acked j
      in_window := fun t => if t = 4 then true else (stA4 m1 m2 m3 m4).in_window t
      windowcount := 5
      A_nextseqnum := 5 }

/-- Sender state after 6 `A_output` calls from `A_init` (Scenario A). -/
def stA6 (m1 m2 m3 m4 m5 m6 : Msg) : SenderState :=
  { stA5 m1 m2 m3 m4 m5 with
      buffer := fun j => if j = 5 then dpkt 5 m6 else (stA5 m1 m2 m3 m4 m5).buffer j
      acked := fun j => if j = 5 then false else (stA5 m1 m2 m3 m4 m5).acked j
      in_window := fun t => if t = 5 then true else (stA5 m1 m2 m3 m4 m5).in_window t
      windowcount := 6
      A_nextseqnum := 6 }

/-- Sender state after the six sends of Scenario A followed by the
in-order acknowledgements `0..0`. -/
def stB1 (m1 m2 m3 m4 m5 m6 : Msg) : SenderState :=
  { stA6 m1 m2 m3 m4 m5 m6 with
      acked := fun j => if j = 0 then true else (stA6 m1 m2 m3 m4 m5 m6).acked j
      in_window := fun t => if t = 0 then false else (stA6 m1 m2 m3 m4 m5 m6).in_window t
      windowbase := 1
      windowcount := 5
      oldest_unacked := 1
      total_ACKs_received := 1
      new_ACKs := 1 }

/-- Sender state after the six sends of Scenario A followed by the
in-order acknowledgements `0..1`. -/
def stB2 (m1 m2 m3 m4 m5 m6 : Msg) : SenderState :=
  { stB1 m1 m2 m3 m4 m5 m6 with
      acked := fun j => if j = 1 then true else (stB1 m1 m2 m3 m4 m5 m6).acked j
      in_window := fun t => if t = 1 then false else (stB1 m1 m2 m3 m4 m5 m6).in_window t
      windowbase := 2
      windowcount := 4
      oldest_unacked := 2
      total_ACKs_received := 2
      new_ACKs := 2 }

/-- Sender state after the six sends of Scenario A followed by the
in-order acknowledgements `0..2`. -/
def stB3 (m1 m2 m3 m4 m5 m6 : Msg) : SenderState :=
  { stB2 m1 m2 m3 m4 m5 m6 with
      acked := fun j => if j = 2 then true else (stB2 m1 m2 m3 m4 m5 m6).acked j
      in_window := fun t => if t = 2 then false else (stB2 m1 m2 m3 m4 m5 m6).in_window t
      windowbase := 3
      windowcount := 3
      oldest_unacked := 3
      total_ACKs_received := 3
      new_ACKs := 3 }

/-- Sender state after the six sends of Scenario A followed by the
in-order acknowledgements `0..3`. -/
def stB4 (m1 m2 m3 m4 m5 m6 : Msg) : SenderState :=
  { stB3 m1 m2 m3 m4 m5 m6 with
      acked := fun j => if j = 3 then true else (stB3 m1 m2 m3 m4 m5 m6).acked j
      in_window := fun t => if t = 3 then false else (stB3 m1 m2 m3 m4 m5 m6).in_window t
      windowbase := 4
      windowcount := 2
      oldest_unacked := 4
      total_ACKs_received := 4
      new_ACKs := 4 }

/-- Sender state after the six sends of Scenario A followed by the
in-order acknowledgements `0..4`. -/
def stB5 (m1 m2 m3 m4 m5 m6 : Msg) : SenderState :=
  { stB4 m1 m2 m3 m4 m5 m6 with
      acked := fun j => if j = 4 then true else (stB4 m1 m2 m3 m4 m5 m6).acked j
      in_window := fun t => if t = 4 then false else (stB4 m1 m2 m3 m4 m5 m6).in_window t
      windowbase := 5
      windowcount := 1
      oldest_unacked := 5
      total_ACKs_received := 5
      new_ACKs := 5 }

/-- Sender state after the six sends of Scenario A followed by the
in-order acknowledgements `0..5`. -/
def stB6 (m1 m2 m3 m4 m5 m6 : Msg) : SenderState :=
  { stB5 m1 m2 m3 m4 m5 m6 with
      acked := fun j => if j = 5 then true else (stB5 m1 m2 m3 m4 m5 m6).acked j
      in_window := fun t => if t = 5 then false else (stB5 m1 m2 m3 m4 m5 m6).in_window t
      windowbase := 6
      windowcount := 0
      oldest_unacked := -1
      total_ACKs_received := 6
      new_ACKs := 6
      timerOn := false }

/-! ## Theorems -/

/-- Step 1 of Scenario A's output phase, computed. -/
theorem stepO1 (m1 : Msg) :
    A_output A_initState m1 = (stA1 m1, [Evt.tolayer3 (dpkt 0 m1), Evt.startTimer]) := rfl

/-- Step 2 of Scenario A's output phase, computed. -/
theorem stepO2 (m1 m2 : Msg) :
    A_output (stA1 m1) m2 = (stA2 m1 m2, [Evt.tolayer3 (dpkt 1 m2)]) := rfl

/-- Step 3 of Scenario A's output phase, computed. -/
theorem stepO3 (m1 m2 m3 : Msg) :
    A_output (stA2 m1 m2) m3 = (stA3 m1 m2 m3, [Evt.tolayer3 (dpkt 2 m3)]) := rfl

/-- Step 4 of Scenario A's output phase, computed. -/
theorem stepO4 (m1 m2 m3 m4 : Msg) :
    A_output (stA3 m1 m2 m3) m4 = (stA4 m1 m2 m3 m4, [Evt.tolayer3 (dpkt 3 m4)]) := rfl

/-- Step 5 of Scenario A's output phase, computed. -/
theorem stepO5 (m1 m2 m3 m4 m5 : Msg) :
    A_output (stA4 m1 m2 m3 m4) m5 = (stA5 m1 m2 m3 m4 m5, [Evt.tolayer3 (dpkt 4 m5)]) := rfl

/-- Step 6 of Scenario A's output phase, computed. -/
theorem stepO6 (m1 m2 m3 m4 m5 m6 : Msg) :
    A_output (stA5 m1 m2 m3 m4 m5) m6 = (stA6 m1 m2 m3 m4 m5 m6, [Evt.tolayer3 (dpkt 5 m6)]) := rfl

/-- Acknowledgement 0 of Scenario A's acknowledgement phase, computed. -/
theorem stepI1 (m1 m2 m3 m4 m5 m6 : Msg) :
    A_input (stA6 m1 m2 m3 m4 m5 m6) (mkAck 1 0) = (stB1 m1 m2 m3 m4 m5 m6, [Evt.stopTimer, Evt.startTimer]) := rfl

/-- Acknowledgement 1 of Scenario A's acknowledgement phase, computed. -/
theorem stepI2 (m1 m2 m3 m4 m5 m6 : Msg) :
    A_input (stB1 m1 m2 m3 m4 m5 m6) (mkAck 0 1) = (stB2 m1 m2 m3 m4 m5 m6, [Evt.stopTimer, Evt.startTimer]) := rfl

/-- Acknowledgement 2 of Scenario A's acknowledgement phase, computed. -/
theorem stepI3 (m1 m2 m3 m4 m5 m6 : Msg) :
    A_input (stB2 m1 m2 m3 m4 m5 m6) (mkAck 1 2) = (stB3 m1 m2 m3 m4 m5 m6, [Evt.stopTimer, Evt.startTimer]) := rfl

/-- Acknowledgement 3 of Scenario A's acknowledgement phase, computed. -/
theorem stepI4 (m1 m2 m3 m4 m5 m6 : Msg) :
    A_input (stB3 m1 m2 m3 m4 m5 m6) (mkAck 0 3) = (stB4 m1 m2 m3 m4 m5 m6, [Evt.stopTimer, Evt.startTimer]) := rfl

/-- Acknowledgement 4 of Scenario A's acknowledgement phase, computed. -/
theorem stepI5 (m1 m2 m3 m4 m5 m6 : Msg) :
    A_input (stB4 m1 m2 m3 m4 m5 m6) (mkAck 1 4) = (stB5 m1 m2 m3 m4 m5 m6, [Evt.stopTimer, Evt.startTimer]) := rfl

/-- Acknowledgement 5 of Scenario A's acknowledgement phase, computed. -/
theorem stepI6 (m1 m2 m3 m4 m5 m6 : Msg) :
    A_input (stB5 m1 m2 m3 m4 m5 m6) (mkAck 0 5) = (stB6 m1 m2 m3 m4 m5 m6, [Evt.stopTimer]) := rfl

/-- The slide loop never touches the acked flags. -/
theorem slideWindow_acked (n : Nat) : ∀ s : SenderState, (slideWindow s n).acked = s.acked := by
  induction n with
  | zero => intro s; rfl
  | succ n ih =>
    intro s
    unfold slideWindow
    split
    · rw [ih]
    · rfl

/-- An acknowledgement whose slot is already marked acked leaves the
window state untouched (it is treated as a duplicate or falls outside
the window). -/
theorem A_input_view_of_acked (t : SenderState) (p : Pkt)
    (h : t.acked (Int.tmod p.acknum WINDOWSIZE) = true) :
    windowView (A_input t p).1 = windowView t := by
  unfold A_input
  split
  · rfl
  · dsimp only
    split
    · rw [if_neg]
      · rfl
      · simp [h]
    · rfl

/-- After a fresh in-window acknowledgement is processed, its slot's
acked flag is set. -/
theorem A_input_acked_after (s : SenderState) (p : Pkt)
    (hc : ¬ IsCorrupted p = true)
    (hr : (s.windowbase ≤ Int.tmod (s.windowbase + s.windowcount - 1) SEQSPACE ∧
            s.windowbase ≤ p.acknum ∧
            p.acknum ≤ Int.tmod (s.windowbase + s.windowcount - 1) SEQSPACE) ∨
          (Int.tmod (s.windowbase + s.windowcount - 1) SEQSPACE < s.windowbase ∧
            (s.windowbase ≤ p.acknum ∨
              p.acknum ≤ Int.tmod (s.windowbase + s.windowcount - 1) SEQSPACE)))
    (hd : s.acked (Int.tmod p.acknum WINDOWSIZE) = false ∧
          s.in_window p.acknum = true) :
    ((A_input s p).1).acked (Int.tmod p.acknum WINDOWSIZE) = true := by
  unfold A_input
  rw [if_neg hc]
  dsimp only
  rw [if_pos hr, if_pos hd]
  dsimp only
  split
  · split
    · rw [slideWindow_acked]
      simp
    · rw [slideWindow_acked]
      simp
  · rw [slideWindow_acked]
    simp

/-- Processing the same acknowledgement packet twice yields the same
window state as processing it once, for every sender state. -/
theorem A_input_idem_view (s : SenderState) (p : Pkt) :
    windowView (A_input (A_input s p).1 p).1 = windowView (A_input s p).1 := by
  by_cases hc : IsCorrupted p = true
  · have h1 : (A_input s p).1 = s := by simp [A_input, hc]
    rw [h1, h1]
  · by_cases hr : (s.windowbase ≤ Int.tmod (s.windowbase + s.windowcount - 1) SEQSPACE ∧
            s.windowbase ≤ p.acknum ∧
            p.acknum ≤ Int.tmod (s.windowbase + s.windowcount - 1) SEQSPACE) ∨
          (Int.tmod (s.windowbase + s.windowcount - 1) SEQSPACE < s.windowbase ∧
            (s.windowbase ≤ p.acknum ∨
              p.acknum ≤ Int.tmod (s.windowbase + s.windowcount - 1) SEQSPACE))
    · by_cases hd : s.acked (Int.tmod p.acknum WINDOWSIZE) = false ∧
          s.in_window p.acknum = true
      · exact A_input_view_of_acked _ _ (A_input_acked_after s p hc hr hd)
      · have h1 : (A_input s p).1 =
            { s with total_ACKs_received := s.total_ACKs_received + 1 } := by
          unfold A_input
          rw [if_neg hc]
          dsimp only
          rw [if_pos hr, if_neg hd]
        rw [h1]
        have h2 : (A_input { s with total_ACKs_received := s.total_ACKs_received + 1 } p).1 =
            { s with total_ACKs_received := s.total_ACKs_received + 1 + 1 } := by
          unfold A_input
          rw [if_neg hc]
          dsimp only
          rw [if_pos hr, if_neg hd]
        rw [h2]
        rfl
    · have h1 : (A_input s p).1 =
          { s with total_ACKs_received := s.total_ACKs_received + 1 } := by
        unfold A_input
        rw [if_neg hc]
        dsimp only
        rw [if_neg hr]
      rw [h1]
      have h2 : (A_input { s with total_ACKs_received := s.total_ACKs_received + 1 } p).1 =
          { s with total_ACKs_received := s.total_ACKs_received + 1 + 1 } := by
        unfold A_input
        rw [if_neg hc]
        dsimp only
        rw [if_neg hr]
      rw [h2]
      rfl

/-- C's truncating `%` agrees with mathematical mod on nonnegative
operands (modulus `SEQSPACE` = 7). -/
theorem tmodE (a : Int) (h : 0 ≤ a) : Int.tmod a 7 = a % 7 :=
  Int.tmod_eq_emod h (by norm_num)

/-- The slide loop preserves the sender-window invariant. -/
theorem slideWindow_inv (n : Nat) :
    ∀ s : SenderState, SenderInv s → SenderInv (slideWindow s n) := by
  induction n with
  | zero => exact fun s h => h
  | succ n ih =>
    intro s h
    unfold slideWindow
    split
    · rename_i hcond
      obtain ⟨hgt, hack, hinw⟩ := hcond
      obtain ⟨hb0, hb7, hc0, hc6, hn, hw⟩ := h
      simp only [SEQSPACE, WINDOWSIZE] at hb7 hc6 hn hw
      have e1 : Int.tmod (s.windowbase + 1) 7 = (s.windowbase + 1) % 7 :=
        tmodE _ (by omega)
      have e1a : 0 ≤ (s.windowbase + 1) % 7 := Int.emod_nonneg _ (by norm_num)
      have e1b : (s.windowbase + 1) % 7 < 7 := Int.emod_lt_of_pos _ (by norm_num)
      rw [tmodE _ (by omega)] at hn
      refine ih _ ⟨?_, ?_, ?_, ?_, ?_, ?_⟩
      · show 0 ≤ Int.tmod (s.windowbase + 1) SEQSPACE
        simp only [SEQSPACE]
        omega
      · show Int.tmod (s.windowbase + 1) SEQSPACE < SEQSPACE
        simp only [SEQSPACE]
        omega
      · show (0 : Int) ≤ s.windowcount - 1
        omega
      · show s.windowcount - 1 ≤ WINDOWSIZE
        simp only [WINDOWSIZE]
        omega
      · show s.A_nextseqnum =
          Int.tmod (Int.tmod (s.windowbase + 1) SEQSPACE + (s.windowcount - 1)) SEQSPACE
        simp only [SEQSPACE]
        rw [e1, tmodE _ (by omega)]
        omega
      · intro t
        show (if t = s.windowbase then false else s.in_window t) = true ↔
          ∃ i, 0 ≤ i ∧ i < s.windowcount - 1 ∧
            t = Int.tmod (Int.tmod (s.windowbase + 1) SEQSPACE + i) SEQSPACE
        simp only [SEQSPACE]
        by_cases ht : t = s.windowbase
        · rw [if_pos ht]
          constructor
          · intro hx
            exact absurd hx (by simp)
          · rintro ⟨i, hi0, hi1, hEq⟩
            exfalso
            rw [e1, tmodE _ (by omega)] at hEq
            rw [ht] at hEq
            omega
        · rw [if_neg ht]
          rw [hw t]
          constructor
          · rintro ⟨i, hi0, hi1, hEq⟩
            rw [tmodE _ (by omega)] at hEq
            have hiz : i ≠ 0 := by
              intro h0
              apply ht
              rw [h0] at hEq
              omega
            refine ⟨i - 1, by omega, by omega, ?_⟩
            rw [e1, tmodE _ (by omega)]
            omega
          · rintro ⟨j, hj0, hj1, hEq⟩
            rw [e1, tmodE _ (by omega)] at hEq
            refine ⟨j + 1, by omega, by omega, ?_⟩
            rw [tmodE _ (by omega)]
            omega
    · exact h

/-- `A_output` preserves the sender-window invariant. -/
theorem A_output_inv (s : SenderState) (m : Msg) (h : SenderInv s) :
    SenderInv (A_output s m).1 := by
  unfold A_output
  split
  · rename_i hlt
    obtain ⟨hb0, hb7, hc0, hc6, hn, hw⟩ := h
    simp only [SEQSPACE, WINDOWSIZE] at hb7 hc6 hn hw
    simp only [WINDOWSIZE] at hlt
    dsimp only
    rw [tmodE _ (by omega)] at hn
    have he1 : 0 ≤ (s.windowbase + s.windowcount) % 7 :=
      Int.emod_nonneg _ (by norm_num)
    have he2 : (s.windowbase + s.windowcount) % 7 < 7 :=
      Int.emod_lt_of_pos _ (by norm_num)
    have key : ∀ t : Int,
        (if t = s.A_nextseqnum then true else s.in_window t) = true ↔
        ∃ i, 0 ≤ i ∧ i < s.windowcount + 1 ∧
          t = Int.tmod (s.windowbase + i) 7 := by
      intro t
      by_cases ht : t = s.A_nextseqnum
      · rw [if_pos ht]
        constructor
        · intro _
          refine ⟨s.windowcount, by omega, by omega, ?_⟩
          rw [ht, hn, tmodE _ (by omega)]
        · intro _
          rfl
      · rw [if_neg ht]
        rw [hw t]
        constructor
        · rintro ⟨i, hi0, hi1, hEq⟩
          exact ⟨i, hi0, by omega, hEq⟩
        · rintro ⟨i, hi0, hi1, hEq⟩
          by_cases hiw : i = s.windowcount
          · exfalso
            apply ht
            rw [hiw] at hEq
            rw [hEq, hn, tmodE _ (by omega)]
          · exact ⟨i, hi0, by omega, hEq⟩
    split
    · refine ⟨?_, ?_, ?_, ?_, ?_, ?_⟩
      · show 0 ≤ s.windowbase
        omega
      · show s.windowbase < SEQSPACE
        simp only [SEQSPACE]
        omega
      · show (0 : Int) ≤ s.windowcount + 1
        omega
      · show s.windowcount + 1 ≤ WINDOWSIZE
        simp only [WINDOWSIZE]
        omega
      · show Int.tmod (s.A_nextseqnum + 1) SEQSPACE =
          Int.tmod (s.windowbase + (s.windowcount + 1)) SEQSPACE
        simp only [SEQSPACE]
        rw [hn, tmodE _ (by have := he1; omega), tmodE _ (by omega)]
        omega
      · intro t
        show (if t = s.A_nextseqnum then true else s.in_window t) = true ↔
          ∃ i, 0 ≤ i ∧ i < s.windowcount + 1 ∧
            t = Int.tmod (s.windowbase + i) SEQSPACE
        simp only [SEQSPACE]
        exact key t
    · refine ⟨?_, ?_, ?_, ?_, ?_, ?_⟩
      · show 0 ≤ s.windowbase
        omega
      · show s.windowbase < SEQSPACE
        simp only [SEQSPACE]
        omega
      · show (0 : Int) ≤ s.windowcount + 1
        omega
      · show s.windowcount + 1 ≤ WINDOWSIZE
        simp only [WINDOWSIZE]
        omega
      · show Int.tmod (s.A_nextseqnum + 1) SEQSPACE =
          Int.tmod (s.windowbase + (s.windowcount + 1)) SEQSPACE
        simp only [SEQSPACE]
        rw [hn, tmodE _ (by have := he1; omega), tmodE _ (by omega)]
        omega
      · intro t
        show (if t = s.A_nextseqnum then true else s.in_window t) = true ↔
          ∃ i, 0 ≤ i ∧ i < s.windowcount + 1 ∧
            t = Int.tmod (s.windowbase + i) SEQSPACE
        simp only [SEQSPACE]
        exact key t
  · exact h

/-- `A_input` preserves the sender-window invariant. -/
theorem A_input_inv (s : SenderState) (p : Pkt) (h : SenderInv s) :
    SenderInv (A_input s p).1 := by
  unfold A_input
  split
  · exact h
  · dsimp only
    split
    · split
      · apply slideWindow_inv
        split
        · split
          · exact h
          · exact h
        · exact h
      · exact h
    · exact h

/-- `A_timerinterrupt` preserves the sender-window invariant. -/
theorem A_timerinterrupt_inv (s : SenderState) (h : SenderInv s) :
    SenderInv (A_timerinterrupt s).1 := by
  unfold A_timerinterrupt
  split
  · dsimp only
    split
    · exact h
    · split
      · exact h
      · exact h
  · exact h

/-- `A_init` establishes the sender-window invariant. -/
theorem A_init_inv : SenderInv A_initState := by
  refine ⟨by norm_num [A_initState], by norm_num [A_initState, SEQSPACE],
    by norm_num [A_initState], by norm_num [A_initState, WINDOWSIZE], by decide, ?_⟩
  intro t
  constructor
  · intro hx
    exact absurd hx (by simp [A_initState])
  · rintro ⟨i, hi0, hi1, _⟩
    exfalso
    have : A_initState.windowcount = 0 := rfl
    omega

/-- Every reachable sender state satisfies the window invariant. -/
theorem reachableA_inv {s : SenderState} (h : ReachableA s) : SenderInv s := by
  induction h with
  | init => exact A_init_inv
  | output m _ ih => exact A_output_inv _ m ih
  | input p _ ih => exact A_input_inv _ p ih
  | timer _ ih => exact A_timerinterrupt_inv _ ih


/-- C1: the at-most-once delivery claim fails on the code.  Feeding the
receiver, from `B_init`, the uncorrupted in-order packets `0..6` (which
wrap the window base back to `0`) followed by a retransmission of the
already-delivered packet `0` makes `B_input` hand packet 0's payload to
`tolayer5` a second time: the delivery list repeats
`List.replicate 20 10`. -/
theorem double_delivery_after_wraparound :
    (∀ p ∈ wrapTrace, IsCorrupted p = false) ∧
    deliveredPayloads (runB 1 0 B_initState wrapTrace).2 =
      [List.replicate 20 10, List.replicate 20 11, List.replicate 20 12,
       List.replicate 20 13, List.replicate 20 14, List.replicate 20 15,
       List.replicate 20 16, List.replicate 20 10] ∧
    (deliveredPayloads (runB 1 0 B_initState wrapTrace).2).count
      (List.replicate 20 10) = 2 :=
  ⟨by decide, by decide, by decide⟩

/-- C2: the silently-drop-corrupted-packets claim fails on the code when
the emulator trace level is 0: the `return` in the corrupted branch of
`B_input` is guarded by `if (TRACE > 0)` (its `printf` was commented
out), so with `TRACE = 0` a corrupted arrival falls through to the ACK
tail and transmits an acknowledgement whose acknum is the uninitialized
junk value (here 99), flipping `B_nextseqnum` from 1 to 0; with
`TRACE = 1` the packet is dropped silently as claimed. -/
theorem corrupted_packet_acked_when_trace_zero :
    IsCorrupted corruptPkt = true ∧
    sentAcknums (B_input 0 99 B_initState corruptPkt).2 = [99] ∧
    (B_input 0 99 B_initState corruptPkt).1.B_nextseqnum = 0 ∧
    B_initState.B_nextseqnum = 1 ∧
    B_input 1 99 B_initState corruptPkt = (B_initState, []) :=
  ⟨by decide, by decide, by decide, by decide, rfl⟩

/-- C3: the always-ack-with-received-seqnum claim fails on the code when
the emulator trace level is 0 and the packet is outside the receive
window: the assignment `sendpkt.acknum = packet.seqnum` in the
out-of-window branch is guarded by `if (TRACE > 0)` (its `printf` was
commented out), so with `TRACE = 0` the emitted acknowledgement carries
the uninitialized junk value (here 99) instead of the received
sequence number 6; with `TRACE = 1` it carries 6 as claimed. -/
theorem out_of_window_ack_junk_when_trace_zero :
    IsCorrupted (mkData 6 20) = false ∧
    sentAcknums (B_input 0 99 B_initState (mkData 6 20)).2 = [99] ∧
    (99 : Int) ≠ (mkData 6 20).seqnum ∧
    sentAcknums (B_input 1 99 B_initState (mkData 6 20)).2 = [6] :=
  ⟨by decide, by decide, by decide, by decide⟩

/-- C4: the delivered-set claim fails on the code: `already_received`
is written but never consulted.  After the in-order packets `0..6`,
sequence number 0 is marked in `already_received` (and its payload was
already delivered), yet a retransmission of packet 0 is delivered to
the application a second time. -/
theorem already_received_not_consulted :
    ((runB 1 0 B_initState (wrapTrace.take 7)).1.already_received 0 = true) ∧
    List.replicate 20 10 ∈
      deliveredPayloads (runB 1 0 B_initState (wrapTrace.take 7)).2 ∧
    deliveredPayloads
        (B_input 1 0 (runB 1 0 B_initState (wrapTrace.take 7)).1 (mkData 0 10)).2 =
      [List.replicate 20 10] :=
  ⟨by decide, by decide, by decide⟩

/-- C5: a corrupted acknowledgement is dropped by `A_input` with no
state change whatsoever (window buffer, acked flags, in-window flags,
window base, window count, next sequence number, oldest-unacked, timer,
counters) and no action emitted. -/
theorem A_input_corrupted_no_change (s : SenderState) (p : Pkt)
    (h : IsCorrupted p = true) :
    A_input s p = (s, []) := by
  simp [A_input, h]

/-- Witness for C5 at a concrete corrupted packet and the initial
state. -/
theorem A_input_corrupted_no_change_witness :
    A_input A_initState corruptPkt = (A_initState, []) :=
  A_input_corrupted_no_change A_initState corruptPkt (by decide)

/-- C6: Scenario A.  From `A_init`, six `A_output` calls (arbitrary
messages) transmit packets with sequence numbers `0,1,2,3,4,5` with
exactly one timer start, occurring at the first send; processing the
acknowledgements `0..5` in order then drives the window base to 6, the
window count to 0, and leaves the timer stopped. -/
theorem scenarioA_six_sends_then_acks (m1 m2 m3 m4 m5 m6 : Msg) :
    let r1 := A_output A_initState m1
    let r2 := A_output r1.1 m2
    let r3 := A_output r2.1 m3
    let r4 := A_output r3.1 m4
    let r5 := A_output r4.1 m5
    let r6 := A_output r5.1 m6
    let sends := r1.2 ++ r2.2 ++ r3.2 ++ r4.2 ++ r5.2 ++ r6.2
    let t1 := A_input r6.1 (mkAck 1 0)
    let t2 := A_input t1.1 (mkAck 0 1)
    let t3 := A_input t2.1 (mkAck 1 2)
    let t4 := A_input t3.1 (mkAck 0 3)
    let t5 := A_input t4.1 (mkAck 1 4)
    let t6 := A_input t5.1 (mkAck 0 5)
    sentSeqnums sends = [0, 1, 2, 3, 4, 5] ∧
    countStarts sends = 1 ∧
    countStarts r1.2 = 1 ∧
    t6.1.windowbase = 6 ∧
    t6.1.windowcount = 0 ∧
    t6.1.timerOn = false := by
  simp only [stepO1, stepO2, stepO3, stepO4, stepO5, stepO6,
    stepI1, stepI2, stepI3, stepI4, stepI5, stepI6]
  exact ⟨rfl, rfl, rfl, rfl, rfl, rfl⟩

/-- C7: when the timer fires with a packet being timed
(`oldest_unacked` not `-1`): if that slot is still unacked and
in-window, `A_timerinterrupt` retransmits exactly that one buffered
packet (a single `tolayer3` of the slot's contents, nothing else from
the window) and restarts the timer, changing no window state; if the
slot is already acked, it instead stores the recomputed oldest unacked
and restarts the timer only if one exists. -/
theorem timerinterrupt_single_retransmit (s : SenderState)
    (h : s.oldest_unacked ≠ -1) :
    (s.acked (Int.tmod s.oldest_unacked WINDOWSIZE) = false ∧
        s.in_window s.oldest_unacked = true →
      A_timerinterrupt s =
        ({ s with timerOn := true, packets_resent := s.packets_resent + 1 },
         [Evt.tolayer3 (s.buffer (Int.tmod s.oldest_unacked WINDOWSIZE)),
          Evt.startTimer])) ∧
    (s.acked (Int.tmod s.oldest_unacked WINDOWSIZE) = true →
      (A_timerinterrupt s).1.oldest_unacked = find_oldest_unacked s ∧
      (A_timerinterrupt s).2 =
        (if find_oldest_unacked s ≠ -1 then [Evt.startTimer] else [])) := by
  constructor
  · intro hfresh
    unfold A_timerinterrupt
    rw [if_pos h, if_pos hfresh]
  · intro hacked
    unfold A_timerinterrupt
    rw [if_pos h, if_neg (by simp [hacked])]
    dsimp only
    split
    · exact ⟨rfl, rfl⟩
    · exact ⟨rfl, rfl⟩

/-- Witness for C7 at the reachable state holding exactly the first
packet. -/
theorem timerinterrupt_single_retransmit_witness :
    let w := (A_output A_initState msgSeven).1
    (w.acked (Int.tmod w.oldest_unacked WINDOWSIZE) = false ∧
        w.in_window w.oldest_unacked = true →
      A_timerinterrupt w =
        ({ w with timerOn := true, packets_resent := w.packets_resent + 1 },
         [Evt.tolayer3 (w.buffer (Int.tmod w.oldest_unacked WINDOWSIZE)),
          Evt.startTimer])) ∧
    (w.acked (Int.tmod w.oldest_unacked WINDOWSIZE) = true →
      (A_timerinterrupt w).1.oldest_unacked = find_oldest_unacked w ∧
      (A_timerinterrupt w).2 =
        (if find_oldest_unacked w ≠ -1 then [Evt.startTimer] else [])) :=
  timerinterrupt_single_retransmit (A_output A_initState msgSeven).1 (by decide)

/-- C8: acknowledgement processing is idempotent: for every reachable
sender state and every acknowledgement packet (acknum in the sequence
space), running `A_input` twice on the same packet yields the same
window state — buffer, acked flags, in-window flags, window base,
window count, oldest-unacked — as running it once. -/
theorem ack_processing_idempotent (s : SenderState) (p : Pkt)
    (hs : ReachableA s) (h0 : 0 ≤ p.acknum) (h7 : p.acknum < SEQSPACE) :
    windowView (A_input (A_input s p).1 p).1 = windowView (A_input s p).1 :=
  A_input_idem_view s p

/-- Witness for C8 at the initial state and a concrete acknowledgement. -/
theorem ack_processing_idempotent_witness :
    windowView (A_input (A_input A_initState (mkAck 1 0)).1 (mkAck 1 0)).1 =
      windowView (A_input A_initState (mkAck 1 0)).1 :=
  ack_processing_idempotent A_initState (mkAck 1 0) ReachableA.init
    (by decide) (by decide)

/-- C9: in every sender state reachable from `A_init`, the window count
satisfies `0 ≤ windowcount ≤ WINDOWSIZE`. -/
theorem windowcount_bounded (s : SenderState) (h : ReachableA s) :
    0 ≤ s.windowcount ∧ s.windowcount ≤ WINDOWSIZE :=
  ⟨(reachableA_inv h).2.2.1, (reachableA_inv h).2.2.2.1⟩

/-- Witness for C9 at the state reachable by one `A_output`. -/
theorem windowcount_bounded_witness :
    0 ≤ (A_output A_initState msgSeven).1.windowcount ∧
      (A_output A_initState msgSeven).1.windowcount ≤ WINDOWSIZE :=
  windowcount_bounded (A_output A_initState msgSeven).1
    (ReachableA.output msgSeven ReachableA.init)

/-- C10: in every reachable sender state, `in_window` marks exactly the
`windowcount` sequence numbers of the current window: `in_window t` is
true iff `t` is `windowbase + i` modulo `SEQSPACE` for some
`0 ≤ i < windowcount`; since all four handlers preserve reachability,
every sender operation preserves this correspondence. -/
theorem in_window_matches_window (s : SenderState) (h : ReachableA s) :
    ∀ t : Int, s.in_window t = true ↔
      ∃ i : Int, 0 ≤ i ∧ i < s.windowcount ∧
        t = Int.tmod (s.windowbase + i) SEQSPACE :=
  (reachableA_inv h).2.2.2.2.2

/-- Witness for C10 at the state reachable by one `A_output`,
instantiated at sequence number 0. -/
theorem in_window_matches_window_witness :
    (A_output A_initState msgSeven).1.in_window 0 = true ↔
      ∃ i : Int, 0 ≤ i ∧ i < (A_output A_initState msgSeven).1.windowcount ∧
        (0 : Int) = Int.tmod ((A_output A_initState msgSeven).1.windowbase + i) SEQSPACE :=
  in_window_matches_window (A_output A_initState msgSeven).1
    (ReachableA.output msgSeven ReachableA.init) 0
